import Mathlib

/-!
Shallow embedding of the Inferno Guide API core (src/main.py): the static
circle catalog, the journey request validation performed by the pydantic
model, and the `build_journey` selection algorithm, together with proofs of
the specified properties.
-/

set_option maxRecDepth 4000

namespace Inferno

/-- Embeds Python's `str.lower()` as used on the request fields (ASCII
lowercasing of each character), written as a structural map over the
character list so that it evaluates in the kernel. -/
def strLower (s : String) : String :=
  String.mk (s.data.map Char.toLower)

/-- The `Circle` pydantic model of src/main.py. -/
structure Circle where
  id : Nat
  name : String
  sin : String
  guardians : List String
  punishment : String
  motto : String
  color : String := "#ef4444"
  quote : Option String := none
deriving DecidableEq

/-- The `CIRCLES` catalog of src/main.py: nine records in definition order. -/
def CIRCLES : List Circle := [
  { id := 1,
    name := "Limbo",
    sin := "The Unbaptized & Virtuous Pagans",
    guardians := ["Minos (on threshold)", "Poets"],
    punishment := "Eternal longing without torment",
    motto := "Where hope is a horizon you can see but never reach.",
    color := "#a7f3d0",
    quote := some ("We are those who without hope live in desire.") },
  { id := 2,
    name := "Lust",
    sin := "Swept by passion",
    guardians := ["Minos", "Francesca & Paolo"],
    punishment := "Whirled in an endless storm",
    motto := "To be carried by every wind is to never arrive.",
    color := "#fda4af",
    quote := some ("Love, which quickly kindles in the gentle heart…") },
  { id := 3,
    name := "Gluttony",
    sin := "Excess and indulgence",
    guardians := ["Cerberus"],
    punishment := "Battered by icy rain and filth",
    motto := "What consumes you is not what you eat, but what you cannot refuse.",
    color := "#fde68a" },
  { id := 4,
    name := "Greed",
    sin := "Hoarders & Wasters",
    guardians := ["Plutus"],
    punishment := "Push great weights against each other forever",
    motto := "The weight of wanting more is heavier than gold.",
    color := "#fbbf24" },
  { id := 5,
    name := "Wrath",
    sin := "Wrathful & Sullen",
    guardians := ["Phlegyas"],
    punishment := "Fight on the surface; drown below",
    motto := "Anger burns bright; resentment smolders cold.",
    color := "#f87171" },
  { id := 6,
    name := "Heresy",
    sin := "Denial of immortality",
    guardians := ["Furies", "Medusa"],
    punishment := "Burn in flaming tombs",
    motto := "To deny forever is to be sealed within your own certainty.",
    color := "#fb7185" },
  { id := 7,
    name := "Violence",
    sin := "Against others, self, God & nature",
    guardians := ["Minotaur", "Centaurs"],
    punishment := "Boiling blood, forest of suicides, burning sand",
    motto := "Violence returns to the hand that wields it.",
    color := "#ef4444" },
  { id := 8,
    name := "Fraud",
    sin := "Ten Malebolge of deception",
    guardians := ["Geryon"],
    punishment := "Ten ditches for ten kinds of lies",
    motto := "Masks grow heavy when worn forever.",
    color := "#f43f5e" },
  { id := 9,
    name := "Treachery",
    sin := "Betrayers frozen in Cocytus",
    guardians := ["Lucifer"],
    punishment := "Entombed in ice at various depths",
    motto := "The coldest places are reserved for those who betray trust.",
    color := "#60a5fa" }]

/-- The `JourneyRequest` pydantic model after successful validation:
`mood` and `interest` are required strings, `intensity` an integer that
validation constrains to 1..10 (default 5). -/
structure JourneyRequest where
  mood : String
  interest : String
  intensity : Int
deriving DecidableEq

/-- The `JourneyStop` pydantic model. -/
structure JourneyStop where
  circle_id : Nat
  title : String
  takeaway : String
deriving DecidableEq

/-- The `JourneyResponse` pydantic model. -/
structure JourneyResponse where
  title : String
  path : List JourneyStop
  note : String
deriving DecidableEq

/-- A journey request as it arrives on the wire, before pydantic
validation: each field may be absent. -/
structure RawJourneyRequest where
  mood : Option String
  interest : Option String
  intensity : Option Int
deriving DecidableEq

/-- The validation performed by the `JourneyRequest` pydantic model:
`mood` and `interest` are required, `intensity` defaults to 5 and must
satisfy `ge=1, le=10`; a failing request yields a validation error
(`none`). -/
def parseJourneyRequest (r : RawJourneyRequest) : Option JourneyRequest :=
  match r.mood, r.interest with
  | some m, some i =>
    let n := r.intensity.getD 5
    if 1 ≤ n ∧ n ≤ 10 then some { mood := m, interest := i, intensity := n }
    else none
  | _, _ => none

/-- The `mood_map` dictionary lookup of `build_journey`, with its
`.get(..., [1, 2, 3])` fallback. -/
def mood_map (m : String) : List Nat :=
  if m = "curious" then [1, 2, 3, 4]
  else if m = "somber" then [6, 9]
  else if m = "reflective" then [1, 5, 7]
  else if m = "adventurous" then [2, 7, 8]
  else [1, 2, 3]

/-- The `interest_map` dictionary lookup of `build_journey`, with its
`.get(..., [4, 5])` fallback. -/
def interest_map (s : String) : List Nat :=
  if s = "literature" then [1, 2, 5]
  else if s = "psychology" then [2, 3, 5, 7]
  else if s = "myth" then [4, 6, 7, 8]
  else if s = "morality" then [1, 4, 9]
  else if s = "aesthetics" then [2, 6, 9]
  else [4, 5]

/-- `length = max(3, min(7, 2 + req.intensity // 2))` of `build_journey`;
Python `//` is floor division, which on a positive divisor is `Int.ediv`.
The result is converted to `Nat` for list truncation (it is always ≥ 3). -/
def lengthTarget (n : Int) : Nat :=
  (max 3 (min 7 (2 + Int.ediv n 2))).toNat

/-- `sorted(list(base))` of `build_journey`, where `base` is the set union
of the mood list and the interest list: duplicates collapsed, then sorted
ascending. -/
def sortedOf (mi ii : List Nat) : List Nat :=
  ((mi ++ ii).dedup).insertionSort (· ≤ ·)

/-- The sorted base identifier list computed by `build_journey` from the
lower-cased mood and interest of the request. -/
def sortedBase (mood interest : String) : List Nat :=
  sortedOf (mood_map (strLower mood)) (interest_map (strLower interest))

/-- The deterministic padding priority list `[6, 7, 8, 9, 5, 4, 3, 2, 1]`
of `build_journey`. -/
def padPriority : List Nat := [6, 7, 8, 9, 5, 4, 3, 2, 1]

/-- The padding loop of `build_journey`: walk the priority candidates,
stop as soon as `len` elements are present, append a candidate only when
it is not already present. -/
def padLoop (len : Nat) : List Nat → List Nat → List Nat
  | [], ordered => ordered
  | c :: cs, ordered =>
    if len ≤ ordered.length then ordered
    else if c ∈ ordered then padLoop len cs ordered
    else padLoop len cs (ordered ++ [c])

/-- `ordered = sorted(list(base))[:length]` followed by the
`if len(ordered) < length:` padding block of `build_journey`. -/
def orderedOf (base : List Nat) (len : Nat) : List Nat :=
  let ordered := base.take len
  if ordered.length < len then padLoop len padPriority ordered else ordered

/-- The final ordered identifier list `ordered` computed by
`build_journey` for a request. -/
def orderedPath (mood interest : String) (intensity : Int) : List Nat :=
  orderedOf (sortedBase mood interest) (lengthTarget intensity)

/-- `next((c for c in CIRCLES if c.id == cid), None)` of `build_journey`. -/
def findCircle (cid : Nat) : Option Circle :=
  CIRCLES.find? (fun c => c.id == cid)

/-- The takeaway dictionary of `build_journey`, with its
`.get(cid, circle.motto)` fallback. -/
def takeawayFor (cid : Nat) (dflt : String) : String :=
  if cid = 1 then "Hope without action is a gentle prison."
  else if cid = 2 then "Desire untethered becomes a storm."
  else if cid = 3 then "Comfort can drown purpose."
  else if cid = 4 then "The pursuit of more can empty the soul."
  else if cid = 5 then "Anger can power you or poison you."
  else if cid = 6 then "Certainty can calcify curiosity."
  else if cid = 7 then "Violence echoes back to the source."
  else if cid = 8 then "Deception distorts the self first."
  else if cid = 9 then "Trust is a sacred architecture."
  else dflt

/-- The loop body of `build_journey` that turns one identifier into a
stop: `continue` (here `none`) when no circle matches, otherwise a
`JourneyStop` with composed title and takeaway. -/
def mkStop (cid : Nat) : Option JourneyStop :=
  match findCircle cid with
  | none => none
  | some circ =>
    some { circle_id := cid,
           title := circ.name ++ ": " ++ circ.sin,
           takeaway := takeawayFor cid circ.motto }

/-- `build_journey` of src/main.py on a validated request. -/
def build_journey (req : JourneyRequest) : JourneyResponse :=
  let ordered := orderedPath req.mood req.interest req.intensity
  { title := "A Personal Descent",
    path := ordered.filterMap mkStop,
    note := "Your path is a reflection, not a sentence. Carry the insight, not the weight." }

/-- `get_circles` of src/main.py: returns the catalog unchanged. -/
def get_circles : List Circle := CIRCLES

/-! ### Helper lemmas -/

/-- The five lists `mood_map` can produce (four table entries plus the
fallback). -/
def moodLists : List (List Nat) :=
  [[1, 2, 3, 4], [6, 9], [1, 5, 7], [2, 7, 8], [1, 2, 3]]

/-- The six lists `interest_map` can produce (five table entries plus the
fallback). -/
def interestLists : List (List Nat) :=
  [[1, 2, 5], [2, 3, 5, 7], [4, 6, 7, 8], [1, 4, 9], [2, 6, 9], [4, 5]]

/-- The possible values of `lengthTarget`. -/
def lenChoices : List Nat := [3, 4, 5, 6, 7]

/-- The mood vocabulary: the keys of `mood_map`. -/
def knownMoods : List String := ["curious", "somber", "reflective", "adventurous"]

/-- The interest vocabulary: the keys of `interest_map`. -/
def knownInterests : List String :=
  ["literature", "psychology", "myth", "morality", "aesthetics"]

theorem mood_map_mem (m : String) : mood_map m ∈ moodLists := by
  unfold mood_map moodLists
  split_ifs <;> simp

theorem interest_map_mem (s : String) : interest_map s ∈ interestLists := by
  unfold interest_map interestLists
  split_ifs <;> simp

theorem lengthTarget_bounds (n : Int) : 3 ≤ lengthTarget n ∧ lengthTarget n ≤ 7 := by
  unfold lengthTarget
  omega

theorem lengthTarget_mem (n : Int) : lengthTarget n ∈ lenChoices := by
  have h := lengthTarget_bounds n
  have hall : ∀ k : Nat, k < 8 → 3 ≤ k → k ∈ lenChoices := by decide
  exact hall _ (by omega) h.1

/-- Exhaustive check of the final ordered identifier list over every
combination of mood list, interest list and target length the code can
produce: the list has exactly the target length, has no duplicates, and
contains only identifiers 1..9. -/
theorem orderedOf_check :
    ∀ mi ∈ moodLists, ∀ ii ∈ interestLists, ∀ len ∈ lenChoices,
      (orderedOf (sortedOf mi ii) len).length = len ∧
      (orderedOf (sortedOf mi ii) len).Nodup ∧
      ∀ c ∈ orderedOf (sortedOf mi ii) len, 1 ≤ c ∧ c ≤ 9 := by
  decide

theorem orderedPath_spec (m i : String) (n : Int) :
    (orderedPath m i n).length = lengthTarget n ∧
    (orderedPath m i n).Nodup ∧
    ∀ c ∈ orderedPath m i n, 1 ≤ c ∧ c ≤ 9 := by
  have hm := mood_map_mem (strLower m)
  have hi := interest_map_mem (strLower i)
  have hl := lengthTarget_mem n
  exact orderedOf_check _ hm _ hi _ hl

theorem mkStop_isSome (c : Nat) (h1 : 1 ≤ c) (h9 : c ≤ 9) :
    (mkStop c).isSome = true := by
  have hall : ∀ c : Nat, c < 10 → 1 ≤ c → (mkStop c).isSome = true := by decide
  exact hall c (by omega) h1

theorem findCircle_isSome (c : Nat) (h1 : 1 ≤ c) (h9 : c ≤ 9) :
    (findCircle c).isSome = true := by
  have hall : ∀ c : Nat, c < 10 → 1 ≤ c → (findCircle c).isSome = true := by decide
  exact hall c (by omega) h1

theorem mkStop_circle_id (c : Nat) (s : JourneyStop) (h : mkStop c = some s) :
    s.circle_id = c := by
  unfold mkStop at h
  cases hf : findCircle c with
  | none => rw [hf] at h; cases h
  | some circ =>
    rw [hf] at h
    cases h
    rfl

/-- Mapping `circle_id` over the stops built from a list of identifiers
within 1..9 returns the identifier list itself: no identifier is skipped. -/
theorem path_map_circle_id (l : List Nat) (h : ∀ c ∈ l, 1 ≤ c ∧ c ≤ 9) :
    (l.filterMap mkStop).map JourneyStop.circle_id = l := by
  induction l with
  | nil => rfl
  | cons c cs ih =>
    have hc := h c (List.mem_cons_self c cs)
    have hs : (mkStop c).isSome = true := mkStop_isSome c hc.1 hc.2
    cases hm : mkStop c with
    | none => rw [hm] at hs; cases hs
    | some s =>
      have hid : s.circle_id = c := mkStop_circle_id c s hm
      have ih' := ih (fun x hx => h x (List.mem_cons_of_mem _ hx))
      simp [List.filterMap_cons, hm, hid, ih']

theorem build_journey_path_ids (req : JourneyRequest) :
    (build_journey req).path.map JourneyStop.circle_id =
      orderedPath req.mood req.interest req.intensity :=
  path_map_circle_id _ (orderedPath_spec req.mood req.interest req.intensity).2.2

theorem build_journey_path_length (req : JourneyRequest) :
    (build_journey req).path.length = lengthTarget req.intensity := by
  have h := congrArg List.length (build_journey_path_ids req)
  rw [List.length_map] at h
  rw [h, (orderedPath_spec req.mood req.interest req.intensity).1]

/-- The padding loop appends exactly the candidates not already present,
in candidate order, until the target length is reached. -/
theorem padLoop_eq (len : Nat) (cs : List Nat) (hcs : cs.Nodup) :
    ∀ ordered : List Nat,
      padLoop len cs ordered =
        ordered ++ (cs.filter (fun c => decide (c ∉ ordered))).take (len - ordered.length) := by
  induction cs with
  | nil => intro ordered; simp [padLoop]
  | cons c cs ih =>
    intro ordered
    rw [padLoop]
    rcases List.nodup_cons.mp hcs with ⟨hcmem, hcs'⟩
    by_cases hle : len ≤ ordered.length
    · rw [if_pos hle, Nat.sub_eq_zero_of_le hle]
      simp
    · rw [if_neg hle]
      by_cases hc : c ∈ ordered
      · rw [if_pos hc, ih hcs' ordered]
        simp [List.filter_cons, hc]
      · have hfilter : cs.filter (fun x => decide (x ∉ ordered ++ [c])) =
            cs.filter (fun x => decide (x ∉ ordered)) := by
          apply List.filter_congr
          intro x hx
          have hxc : x ≠ c := fun hEq => hcmem (hEq ▸ hx)
          simp [List.mem_append, hxc]
        have ht : len - ordered.length = (len - (ordered.length + 1)) + 1 := by omega
        have hconsfilter : (c :: cs).filter (fun x => decide (x ∉ ordered)) =
            c :: cs.filter (fun x => decide (x ∉ ordered)) := by
          simp [List.filter_cons, hc]
        rw [if_neg hc, ih hcs' (ordered ++ [c]), hfilter, hconsfilter]
        have hlen2 : (ordered ++ [c]).length = ordered.length + 1 := by simp
        rw [hlen2, ht, List.take_succ_cons, List.append_assoc, List.singleton_append]

theorem mood_map_unknown (m : String) (h : m ∉ knownMoods) : mood_map m = [1, 2, 3] := by
  unfold knownMoods at h
  simp only [List.mem_cons, List.not_mem_nil, or_false, not_or] at h
  unfold mood_map
  rw [if_neg h.1, if_neg h.2.1, if_neg h.2.2.1, if_neg h.2.2.2]

theorem interest_map_unknown (s : String) (h : s ∉ knownInterests) :
    interest_map s = [4, 5] := by
  unfold knownInterests at h
  simp only [List.mem_cons, List.not_mem_nil, or_false, not_or] at h
  unfold interest_map
  rw [if_neg h.1, if_neg h.2.1, if_neg h.2.2.1, if_neg h.2.2.2.1, if_neg h.2.2.2.2]

/-! ### Claim theorems -/

/-- C1: for every valid request (intensity in 1..10), the number of stops
in the response of `build_journey` equals
`clamp(2 + floor(intensity / 2), 3, 7)`, the `lengthTarget` of the code. -/
theorem journey_path_length_eq_clamp (m i : String) (n : Int)
    (_h1 : 1 ≤ n) (_h2 : n ≤ 10) :
    (build_journey { mood := m, interest := i, intensity := n }).path.length =
      lengthTarget n :=
  build_journey_path_length { mood := m, interest := i, intensity := n }

/-- Witness for C1 at both boundary intensities: intensity 1 yields 3
stops and intensity 10 yields 7 stops. -/
theorem journey_path_length_eq_clamp_witness :
    (build_journey ⟨"somber", "morality", (1 : Int)⟩).path.length = 3 ∧
    (build_journey ⟨"curious", "myth", (10 : Int)⟩).path.length = 7 :=
  ⟨(journey_path_length_eq_clamp "somber" "morality" 1 (by decide) (by decide)).trans
      (by decide),
   (journey_path_length_eq_clamp "curious" "myth" 10 (by decide) (by decide)).trans
      (by decide)⟩

/-- C2: for every valid request, every stop of the response has a
`circle_id` in 1..9 and no two stops of the same response share a
`circle_id`. -/
theorem journey_stop_ids_inrange_nodup (m i : String) (n : Int)
    (_h1 : 1 ≤ n) (_h2 : n ≤ 10) :
    (∀ s ∈ (build_journey { mood := m, interest := i, intensity := n }).path,
        1 ≤ s.circle_id ∧ s.circle_id ≤ 9) ∧
    ((build_journey { mood := m, interest := i, intensity := n }).path.map
        JourneyStop.circle_id).Nodup := by
  have hids := build_journey_path_ids { mood := m, interest := i, intensity := n }
  have hspec := orderedPath_spec m i n
  constructor
  · intro s hs
    have hmem : s.circle_id ∈
        (build_journey { mood := m, interest := i, intensity := n }).path.map
          JourneyStop.circle_id :=
      List.mem_map_of_mem _ hs
    rw [hids] at hmem
    exact hspec.2.2 _ hmem
  · rw [hids]
    exact hspec.2.1

/-- Witness for C2 at a concrete request. -/
theorem journey_stop_ids_inrange_nodup_witness :
    (∀ s ∈ (build_journey ⟨"curious", "psychology", (8 : Int)⟩).path,
        1 ≤ s.circle_id ∧ s.circle_id ≤ 9) ∧
    ((build_journey ⟨"curious", "psychology", (8 : Int)⟩).path.map
        JourneyStop.circle_id).Nodup :=
  journey_stop_ids_inrange_nodup "curious" "psychology" 8 (by decide) (by decide)

/-- C3: whenever the sorted base list truncated to the target length is
still shorter than the target, the final path is that truncation followed
by exactly the priority candidates `[6, 7, 8, 9, 5, 4, 3, 2, 1]` that are
not already present, in priority order, cut off at the target length. -/
theorem journey_padding_priority (m i : String) (n : Int)
    (h : ((sortedBase m i).take (lengthTarget n)).length < lengthTarget n) :
    orderedPath m i n =
      (sortedBase m i).take (lengthTarget n) ++
        (padPriority.filter
            (fun c => decide (c ∉ (sortedBase m i).take (lengthTarget n)))).take
          (lengthTarget n - ((sortedBase m i).take (lengthTarget n)).length) := by
  have hnodup : padPriority.Nodup := by decide
  unfold orderedPath orderedOf
  rw [if_pos h]
  exact padLoop_eq (lengthTarget n) padPriority hnodup _

/-- Witness for C3: mood "somber" with interest "aesthetics" gives the
base `[2, 6, 9]`, and intensity 10 asks for 7 stops, so the padding
appends 7, 8, 5 and 4 from the priority list. -/
theorem journey_padding_priority_witness :
    orderedPath "somber" "aesthetics" (10 : Int) =
      (sortedBase "somber" "aesthetics").take (lengthTarget 10) ++
        (padPriority.filter
            (fun c => decide (c ∉ (sortedBase "somber" "aesthetics").take (lengthTarget 10)))).take
          (lengthTarget 10 - ((sortedBase "somber" "aesthetics").take (lengthTarget 10)).length) :=
  journey_padding_priority "somber" "aesthetics" 10 (by decide)

/-- C4: the request mood "somber", interest "morality", intensity 5
produces exactly 4 stops, for circles 1, 4, 6 and 9, in that order. -/
theorem journey_somber_morality_five :
    ((build_journey ⟨"somber", "morality", (5 : Int)⟩).path.map
        JourneyStop.circle_id = [1, 4, 6, 9]) ∧
    (build_journey ⟨"somber", "morality", (5 : Int)⟩).path.length = 4 := by
  constructor
  · decide
  · decide

/-- C5: when the lower-cased mood is outside the mood vocabulary and the
lower-cased interest is outside the interest vocabulary, the base
identifier set of `build_journey` is exactly {1, 2, 3, 4, 5}. -/
theorem unknown_mood_interest_base (m i : String)
    (hm : strLower m ∉ knownMoods) (hi : strLower i ∉ knownInterests) :
    sortedBase m i = [1, 2, 3, 4, 5] := by
  unfold sortedBase
  rw [mood_map_unknown _ hm, interest_map_unknown _ hi]
  decide

/-- Witness for C5 with the unknown mood "bored" and unknown interest
"sports". -/
theorem unknown_mood_interest_base_witness :
    sortedBase "bored" "sports" = [1, 2, 3, 4, 5] :=
  unknown_mood_interest_base "bored" "sports" (by decide) (by decide)

/-- C6: validation of a raw journey request fails exactly when mood or
interest is missing or a supplied intensity lies outside 1..10 (a missing
intensity defaults to 5 and passes); on any validated request
`build_journey` completes with a full-length path, so it has no further
failure mode. -/
theorem journey_validation_iff (r : RawJourneyRequest) :
    (parseJourneyRequest r = none ↔
      r.mood = none ∨ r.interest = none ∨
        ∃ n : Int, r.intensity = some n ∧ (n < 1 ∨ 10 < n)) ∧
    ∀ req : JourneyRequest, parseJourneyRequest r = some req →
      (build_journey req).path.length = lengthTarget req.intensity := by
  constructor
  · rcases r with ⟨mo, io, no⟩
    cases mo with
    | none => simp [parseJourneyRequest]
    | some m =>
      cases io with
      | none => simp [parseJourneyRequest]
      | some i =>
        cases no with
        | none => simp [parseJourneyRequest]
        | some n =>
          simp only [parseJourneyRequest, Option.getD_some]
          by_cases h : 1 ≤ n ∧ n ≤ 10
          · rw [if_pos h]
            constructor
            · intro hEq
              exact Option.noConfusion hEq
            · rintro (hmo | hio | ⟨k, hk, hkr⟩)
              · exact Option.noConfusion hmo
              · exact Option.noConfusion hio
              · obtain rfl : n = k := Option.some.inj hk
                exact absurd hkr (by omega)
          · rw [if_neg h]
            constructor
            · intro _
              exact Or.inr (Or.inr ⟨n, rfl, by omega⟩)
            · intro _
              rfl
  · intro req _
    exact build_journey_path_length req

/-- Witness for C6: a request with intensity 11 is rejected by
validation. -/
theorem journey_validation_iff_witness :
    parseJourneyRequest ⟨some ("curious"), some ("myth"), some 11⟩ = none :=
  (journey_validation_iff ⟨some ("curious"), some ("myth"), some 11⟩).1.mpr
    (Or.inr (Or.inr ⟨11, rfl, by decide⟩))

/-- C7: `get_circles` returns the catalog itself: exactly nine circles,
with identifiers exactly 1..9 in definition order and without
duplicates. -/
theorem get_circles_spec :
    get_circles = CIRCLES ∧
    get_circles.length = 9 ∧
    get_circles.map Circle.id = [1, 2, 3, 4, 5, 6, 7, 8, 9] ∧
    (get_circles.map Circle.id).Nodup :=
  ⟨rfl, rfl, rfl, by decide⟩

/-- C8: for every valid request, every identifier of the final ordered
path resolves to a circle of the catalog (the skip branch of the stop
loop never fires), and the response carries one stop per identifier, in
order. -/
theorem journey_path_all_resolve (m i : String) (n : Int)
    (_h1 : 1 ≤ n) (_h2 : n ≤ 10) :
    (∀ c ∈ orderedPath m i n, (findCircle c).isSome = true) ∧
    (build_journey { mood := m, interest := i, intensity := n }).path.map
        JourneyStop.circle_id = orderedPath m i n ∧
    (build_journey { mood := m, interest := i, intensity := n }).path.length =
      (orderedPath m i n).length := by
  refine ⟨?_, ?_, ?_⟩
  · intro c hc
    have hb := (orderedPath_spec m i n).2.2 c hc
    exact findCircle_isSome c hb.1 hb.2
  · exact build_journey_path_ids { mood := m, interest := i, intensity := n }
  · have h := congrArg List.length
      (build_journey_path_ids { mood := m, interest := i, intensity := n })
    simpa using h

/-- Witness for C8 at a concrete request. -/
theorem journey_path_all_resolve_witness :
    (∀ c ∈ orderedPath "reflective" "literature" (3 : Int),
        (findCircle c).isSome = true) ∧
    (build_journey ⟨"reflective", "literature", (3 : Int)⟩).path.map
        JourneyStop.circle_id = orderedPath "reflective" "literature" (3 : Int) ∧
    (build_journey ⟨"reflective", "literature", (3 : Int)⟩).path.length =
      (orderedPath "reflective" "literature" (3 : Int)).length :=
  journey_path_all_resolve "reflective" "literature" 3 (by decide) (by decide)

/-- C9: `build_journey` is deterministic: two requests with the same
mood, interest and intensity receive the same response, whose title and
closing note are the two constant strings of the code. -/
theorem build_journey_deterministic (r₁ r₂ : JourneyRequest)
    (hm : r₁.mood = r₂.mood) (hi : r₁.interest = r₂.interest)
    (hn : r₁.intensity = r₂.intensity) :
    build_journey r₁ = build_journey r₂ ∧
    (build_journey r₁).title = "A Personal Descent" ∧
    (build_journey r₁).note =
      "Your path is a reflection, not a sentence. Carry the insight, not the weight." := by
  rcases r₁ with ⟨m₁, i₁, n₁⟩
  rcases r₂ with ⟨m₂, i₂, n₂⟩
  cases hm
  cases hi
  cases hn
  exact ⟨rfl, rfl, rfl⟩

/-- Witness for C9 at a concrete pair of equal requests. -/
theorem build_journey_deterministic_witness :
    build_journey ⟨"curious", "myth", (4 : Int)⟩ =
      build_journey ⟨"curious", "myth", (4 : Int)⟩ ∧
    (build_journey ⟨"curious", "myth", (4 : Int)⟩).title = "A Personal Descent" ∧
    (build_journey ⟨"curious", "myth", (4 : Int)⟩).note =
      "Your path is a reflection, not a sentence. Carry the insight, not the weight." :=
  build_journey_deterministic ⟨"curious", "myth", 4⟩ ⟨"curious", "myth", 4⟩ rfl rfl rfl

/-- C10: for a fixed mood and interest, the number of stops is
monotonically non-decreasing in the intensity over 1..10. -/
theorem journey_length_monotone (m i : String) (ni nj : Int)
    (_h1 : 1 ≤ ni) (hij : ni ≤ nj) (_h10 : nj ≤ 10) :
    (build_journey { mood := m, interest := i, intensity := ni }).path.length ≤
      (build_journey { mood := m, interest := i, intensity := nj }).path.length := by
  rw [build_journey_path_length, build_journey_path_length]
  show lengthTarget ni ≤ lengthTarget nj
  have hdiv : Int.ediv ni 2 ≤ Int.ediv nj 2 := Int.ediv_le_ediv (by norm_num) hij
  unfold lengthTarget
  omega

/-- Witness for C10 at intensities 2 ≤ 9. -/
theorem journey_length_monotone_witness :
    (build_journey ⟨"somber", "aesthetics", (2 : Int)⟩).path.length ≤
      (build_journey ⟨"somber", "aesthetics", (9 : Int)⟩).path.length :=
  journey_length_monotone "somber" "aesthetics" 2 9 (by decide) (by decide) (by decide)

end Inferno
